import Mathlib

/-!
Verification of the mmwave-cli configuration translation and descriptor
generation pipeline (src/lua_loader.py, src/mimo.py, src/toml_to_mmwave_json.py).

Numeric semantics: Python arithmetic over physical parameters is modelled with
exact rational arithmetic (`ℚ`); the Python `int(...)` cast is modelled as
truncation toward zero (`ratTrunc`).  Python dictionaries holding parameters are
modelled as `String → Option ℚ`; the dictionary built by
`convert_physical_to_lsb` is modelled as an association list in insertion order.
-/

/-- Truncation toward zero of a rational, the semantics of Python `int(x)`
applied to a float.  For nonnegative arguments this is the floor, for negative
arguments the ceiling. -/
def ratTrunc (q : ℚ) : ℤ := if 0 ≤ q then ⌊q⌋ else ⌈q⌉

/-! ## Forward conversions (src/lua_loader.py, convert_physical_to_lsb)

The DFP constants `53.6441803` and `48.2797623` are the exact rationals
`536441803 / 10^7` and `482797623 / 10^7`; `0.01` is `1/100`. -/

/-- `int(params["start_freq"] * 1e9 / 53.6441803)` (lua_loader.py line 51). -/
def fwd_start_freq (v : ℚ) : ℤ := ratTrunc (v * 10 ^ 9 / (536441803 / 10 ^ 7))

/-- `int(params["slope"] * 1000 / 48.2797623)` (lua_loader.py line 54). -/
def fwd_slope (v : ℚ) : ℤ := ratTrunc (v * 1000 / (482797623 / 10 ^ 7))

/-- `int(v / 0.01)`, used for idle_time, adc_start_time and ramp_end_time
(lua_loader.py lines 57, 60, 63). -/
def fwd_time (v : ℚ) : ℤ := ratTrunc (v / (1 / 100))

/-- `int(params["Inter_Frame_Interval"] * 1e6 / 5.0)` (lua_loader.py line 90). -/
def fwd_frame_interval (v : ℚ) : ℤ := ratTrunc (v * 10 ^ 6 / 5)

/-- A single optional entry of the dictionary `p` built by
`convert_physical_to_lsb`: present exactly when the source key was present. -/
def optEntry (k : String) (o : Option ℤ) : List (String × ℤ) :=
  match o with
  | some z => [(k, z)]
  | none => []

/-- `convert_physical_to_lsb` (src/lua_loader.py lines 38-92): converts the
physical parameters extracted from the Lua source into firmware LSB integers.
Each `if "name" in params: p["field"] = ...` statement becomes one optional
entry, in the source's order. -/
def convert_physical_to_lsb (params : String → Option ℚ) : List (String × ℤ) :=
  optEntry "startFreqConst" ((params "start_freq").map fwd_start_freq) ++
  optEntry "freqSlopeConst" ((params "slope").map fwd_slope) ++
  optEntry "idleTimeConst" ((params "idle_time").map fwd_time) ++
  optEntry "adcStartTimeConst" ((params "adc_start_time").map fwd_time) ++
  optEntry "rampEndTime" ((params "ramp_end_time").map fwd_time) ++
  optEntry "numAdcSamples" ((params "adc_samples").map ratTrunc) ++
  optEntry "digOutSampleRate" ((params "sample_freq").map ratTrunc) ++
  optEntry "rxGain" ((params "rx_gain").map ratTrunc) ++
  optEntry "chirpStartIdx" ((params "start_chirp_tx").map ratTrunc) ++
  optEntry "chirpEndIdx" ((params "end_chirp_tx").map ratTrunc) ++
  optEntry "numLoops" ((params "nchirp_loops").map ratTrunc) ++
  optEntry "numFrames" ((params "nframes_master").map ratTrunc) ++
  optEntry "framePeriodicity" ((params "Inter_Frame_Interval").map fwd_frame_interval)

/-! ## Inverse conversions (src/mimo.py, export_config_to_json lines 54-60) -/

/-- `startFreq_GHz = (p_cfg['startFreqConst'] * 53.6441803) / 1e9`. -/
def startFreq_GHz (c : ℚ) : ℚ := c * (536441803 / 10 ^ 7) / 10 ^ 9

/-- `freqSlope_MHz_usec = (p_cfg['freqSlopeConst'] * 48.2797623) / 1000.0`. -/
def freqSlope_MHz_usec (c : ℚ) : ℚ := c * (482797623 / 10 ^ 7) / 1000

/-- `const * 0.01`, used for the idle/adcStart/rampEnd/txStart time fields. -/
def usec_ofConst (c : ℚ) : ℚ := c * (1 / 100)

/-- `framePeriodicity_msec = (f_cfg['framePeriodicity'] * 5.0) / 1e6`. -/
def framePeriodicity_msec (c : ℚ) : ℚ := c * 5 / 10 ^ 6

/-! ## Chirp/antenna assignment table (src/mimo.py lines 76-86) -/

/-- `chirp_tx_table = {0: {11,10,9}, 1: {8,7,6}, 2: {5,4,3}, 3: {2,1,0}}`,
already listed in the descending order produced by
`sorted(list(chirp_tx_table[devId]), reverse=True)`; the `.get(devId, set())`
fallback for unknown device ids becomes the empty list. -/
def chirpTxTable (devId : Nat) : List Nat :=
  if devId = 0 then [11, 10, 9]
  else if devId = 1 then [8, 7, 6]
  else if devId = 2 then [5, 4, 3]
  else if devId = 3 then [2, 1, 0]
  else []

/-- The per-chirp TX-enable bitmask: `1 << tx_map[chirpIdx]` where `tx_map`
maps each driven chirp to its index in the descending-sorted driven set, and
`0` when the device does not drive the chirp (src/mimo.py lines 82-86). -/
def txEnable (devId chirpIdx : Nat) : Nat :=
  match (chirpTxTable devId).findIdx? (fun x => x = chirpIdx) with
  | some i => 1 <<< i
  | none => 0

/-! ## Python hexadecimal formatting: `f"0x{v:X}"` -/

/-- Uppercase hexadecimal digit for `n < 16`. -/
def hexDigitChar (n : Nat) : Char :=
  if n < 10 then Char.ofNat (48 + n) else Char.ofNat (55 + n)

/-- Uppercase hexadecimal digits of `n`, most significant first; `fuel`
bounds the recursion (any `fuel ≥ n` is enough). -/
def hexChars (fuel n : Nat) : List Char :=
  match fuel with
  | 0 => []
  | f + 1 => if n = 0 then [] else hexChars f (n / 16) ++ [hexDigitChar (n % 16)]

/-- Python `format(n, "X")` for a natural number. -/
def hexStr (n : Nat) : String := if n = 0 then "0" else ⟨hexChars n n⟩

/-- Python `f"0x{v:X}"` for an integer (a negative integer formats its sign
between the `0x` prefix and the digits, as CPython does). -/
def pyHexFmt (v : ℤ) : String :=
  if v < 0 then "0x-" ++ hexStr v.natAbs else "0x" ++ hexStr v.toNat

/-- A character that may appear in an uppercase hexadecimal rendering. -/
def isUpperHexDigit (c : Char) : Bool :=
  ('0' ≤ c && c ≤ '9') || ('A' ≤ c && c ≤ 'F')

/-! ## JSON document model -/

/-- JSON values as produced by the serializers: native numbers (ints and
floats are both JSON numbers), strings, arrays and objects with ordered
string keys. -/
inductive JVal where
  | num (q : ℚ)
  | str (s : String)
  | arr (elems : List JVal)
  | obj (fields : List (String × JVal))

/-- Key lookup in a JSON object (none on non-objects and missing keys). -/
def jLookup (v : JVal) (k : String) : Option JVal :=
  match v with
  | .obj fields => fields.lookup k
  | _ => none

/-- Lookup along a path of keys. -/
def jPath (v : JVal) : List String → Option JVal
  | [] => some v
  | k :: ks =>
    match jLookup v k with
    | some u => jPath u ks
    | none => none

/-! ## Canonical configuration model (src/mimo.py, default_radar_config) -/

structure ProfileCfg where
  profileId : ℤ
  pfVcoSelect : ℤ
  startFreqConst : ℤ
  freqSlopeConst : ℤ
  idleTimeConst : ℤ
  adcStartTimeConst : ℤ
  rampEndTime : ℤ
  txOutPowerBackoffCode : ℤ
  txPhaseShifter : ℤ
  txStartTime : ℤ
  numAdcSamples : ℤ
  digOutSampleRate : ℤ
  hpfCornerFreq1 : ℤ
  hpfCornerFreq2 : ℤ
  rxGain : ℤ
deriving DecidableEq

structure FrameCfg where
  chirpStartIdx : ℤ
  chirpEndIdx : ℤ
  numFrames : ℤ
  numLoops : ℤ
  numAdcSamples : ℤ
  frameTriggerDelay : ℤ
  framePeriodicity : ℤ
deriving DecidableEq

structure ChannelCfg where
  rxChannelEn : ℤ
  txChannelEn : ℤ
  cascading : ℤ
deriving DecidableEq

structure AdcOutFmt where
  b2AdcBits : ℤ
  b2AdcOutFmt : ℤ
  b8FullScaleReducFctr : ℤ
deriving DecidableEq

structure DataFmtCfg where
  iqSwapSel : ℤ
  chInterleave : ℤ
  rxChannelEn : ℤ
  adcFmt : ℤ
  adcBits : ℤ
deriving DecidableEq

structure LdoCfg where
  ldoBypassEnable : ℤ
  ioSupplyIndicator : ℤ
  supplyMonIrDrop : ℤ
deriving DecidableEq

structure LpmCfg where
  lpAdcMode : ℤ
deriving DecidableEq

structure MiscCfg where
  miscCtl : ℤ
deriving DecidableEq

structure DatapathCfg where
  intfSel : ℤ
  transferFmtPkt0 : ℤ
  transferFmtPkt1 : ℤ
deriving DecidableEq

structure DatapathClkCfg where
  laneClkCfg : ℤ
  dataRate : ℤ
deriving DecidableEq

structure HsClkCfg where
  hsiClk : ℤ
deriving DecidableEq

structure Csi2LaneCfg where
  lineStartEndDis : ℤ
  lanePosPolSel : ℤ
deriving DecidableEq

/-- The nested radar configuration dictionary of src/mimo.py lines 19-41. -/
structure RadarConfig where
  profileCfg : ProfileCfg
  frameCfg : FrameCfg
  channelCfg : ChannelCfg
  adcOutCfgFmt : AdcOutFmt
  dataFmtCfg : DataFmtCfg
  ldoCfg : LdoCfg
  lpmCfg : LpmCfg
  miscCfg : MiscCfg
  datapathCfg : DatapathCfg
  datapathClkCfg : DatapathClkCfg
  hsClkCfg : HsClkCfg
  csi2LaneCfg : Csi2LaneCfg
deriving DecidableEq

/-- `default_radar_config` (src/mimo.py lines 19-41). -/
def default_radar_config : RadarConfig where
  profileCfg :=
    { profileId := 0, pfVcoSelect := 0x02, startFreqConst := 1434000000
      freqSlopeConst := 518, idleTimeConst := 700, adcStartTimeConst := 435
      rampEndTime := 6897, txOutPowerBackoffCode := 0x0, txPhaseShifter := 0x0
      txStartTime := 0x0, numAdcSamples := 512, digOutSampleRate := 8000
      hpfCornerFreq1 := 0x0, hpfCornerFreq2 := 0x0, rxGain := 48 }
  frameCfg :=
    { chirpStartIdx := 0, chirpEndIdx := 11, numFrames := 0, numLoops := 10
      numAdcSamples := 512, frameTriggerDelay := 0x0, framePeriodicity := 20000000 }
  channelCfg := { rxChannelEn := 0x0F, txChannelEn := 0x07, cascading := 0x02 }
  adcOutCfgFmt := { b2AdcBits := 2, b2AdcOutFmt := 1, b8FullScaleReducFctr := 0 }
  dataFmtCfg :=
    { iqSwapSel := 0, chInterleave := 0, rxChannelEn := 0xF, adcFmt := 1, adcBits := 2 }
  ldoCfg := { ldoBypassEnable := 3, ioSupplyIndicator := 0, supplyMonIrDrop := 0 }
  lpmCfg := { lpAdcMode := 0 }
  miscCfg := { miscCtl := 1 }
  datapathCfg := { intfSel := 0, transferFmtPkt0 := 1, transferFmtPkt1 := 0 }
  datapathClkCfg := { laneClkCfg := 1, dataRate := 1 }
  hsClkCfg := { hsiClk := 0x09 }
  csi2LaneCfg := { lineStartEndDis := 0, lanePosPolSel := 0x35421 }

/-! ## Device descriptor expansion (src/mimo.py, export_config_to_json) -/

/-- One entry of the `rlChirps` array (src/mimo.py lines 88-95). -/
def chirpEntry (chirpIdx devId : Nat) : JVal :=
  .obj [("rlChirpCfg_t", .obj [
    ("chirpStartIdx", .num chirpIdx),
    ("chirpEndIdx", .num chirpIdx),
    ("profileId", .num 0),
    ("startFreqVar_MHz", .num 0),
    ("freqSlopeVar_KHz_usec", .num 0),
    ("idleTimeVar_usec", .num 0),
    ("adcStartTimeVar_usec", .num 0),
    ("txEnable", .str (pyHexFmt (txEnable devId chirpIdx)))])]

/-- The `rlProfileCfg_t` object of a device descriptor
(src/mimo.py lines 109-125). -/
def profCfgObj (cfg : RadarConfig) : JVal :=
  .obj [
    ("profileId", .num cfg.profileCfg.profileId),
    ("pfVcoSelect", .str (pyHexFmt cfg.profileCfg.pfVcoSelect)),
    ("startFreqConst_GHz", .num (startFreq_GHz cfg.profileCfg.startFreqConst)),
    ("idleTimeConst_usec", .num (usec_ofConst cfg.profileCfg.idleTimeConst)),
    ("adcStartTimeConst_usec", .num (usec_ofConst cfg.profileCfg.adcStartTimeConst)),
    ("rampEndTime_usec", .num (usec_ofConst cfg.profileCfg.rampEndTime)),
    ("txOutPowerBackoffCode", .str (pyHexFmt cfg.profileCfg.txOutPowerBackoffCode)),
    ("txPhaseShifter", .str (pyHexFmt cfg.profileCfg.txPhaseShifter)),
    ("freqSlopeConst_MHz_usec", .num (freqSlope_MHz_usec cfg.profileCfg.freqSlopeConst)),
    ("txStartTime_usec", .num (usec_ofConst cfg.profileCfg.txStartTime)),
    ("numAdcSamples", .num cfg.profileCfg.numAdcSamples),
    ("digOutSampleRate", .num cfg.profileCfg.digOutSampleRate),
    ("hpfCornerFreq1", .num cfg.profileCfg.hpfCornerFreq1),
    ("hpfCornerFreq2", .num cfg.profileCfg.hpfCornerFreq2),
    ("rxGain_dB", .str (pyHexFmt cfg.profileCfg.rxGain))]

/-- The `rlFrameCfg_t` object of a device descriptor
(src/mimo.py lines 128-134). -/
def frameCfgObj (cfg : RadarConfig) (devId : Nat) : JVal :=
  .obj [
    ("chirpEndIdx", .num cfg.frameCfg.chirpEndIdx),
    ("chirpStartIdx", .num cfg.frameCfg.chirpStartIdx),
    ("numLoops", .num cfg.frameCfg.numLoops),
    ("numFrames", .num cfg.frameCfg.numFrames),
    ("framePeriodicity_msec", .num (framePeriodicity_msec cfg.frameCfg.framePeriodicity)),
    ("triggerSelect", .num (if devId = 0 then 1 else 2)),
    ("frameTriggerDelay", .num 0)]

/-- One entry of the `mmWaveDevices` array (src/mimo.py lines 97-147). -/
def deviceEntry (cfg : RadarConfig) (devId : Nat) : JVal :=
  .obj [
    ("mmWaveDeviceId", .num devId),
    ("rfConfig", .obj [
      ("rlChanCfg_t", .obj [
        ("rxChannelEn", .str (pyHexFmt cfg.channelCfg.rxChannelEn)),
        ("txChannelEn", .str (pyHexFmt cfg.channelCfg.txChannelEn)),
        ("cascading", .num (if devId = 0 then 1 else 2)),
        ("cascadingPinoutCfg", .str "0x0")]),
      ("rlAdcOutCfg_t", .obj [("fmt", .obj [
        ("b2AdcBits", .num cfg.adcOutCfgFmt.b2AdcBits),
        ("b2AdcOutFmt", .num cfg.adcOutCfgFmt.b2AdcOutFmt),
        ("b8FullScaleReducFctr", .num cfg.adcOutCfgFmt.b8FullScaleReducFctr)])]),
      ("rlLowPowerModeCfg_t", .obj [("lpAdcMode", .num cfg.lpmCfg.lpAdcMode)]),
      ("rlProfiles", .arr [.obj [("rlProfileCfg_t", profCfgObj cfg)]]),
      ("rlChirps", .arr ((List.range 12).map (fun i => chirpEntry i devId))),
      ("rlFrameCfg_t", frameCfgObj cfg devId)]),
    ("rawDataCaptureConfig", .obj [
      ("rlDevDataFmtCfg_t", .obj [
        ("iqSwapSel", .num cfg.dataFmtCfg.iqSwapSel),
        ("chInterleave", .num cfg.dataFmtCfg.chInterleave)]),
      ("rlDevDataPathCfg_t", .obj [
        ("intfSel", .num cfg.datapathCfg.intfSel),
        ("transferFmtPkt0", .str (pyHexFmt cfg.datapathCfg.transferFmtPkt0)),
        ("transferFmtPkt1", .str (pyHexFmt cfg.datapathCfg.transferFmtPkt1))])])]

/-- The complete descriptor document built by `export_config_to_json`
(src/mimo.py lines 63-148).  The generation timestamp is passed in as `now`
(the code uses `datetime.now()`). -/
def exportDoc (cfg : RadarConfig) (now : String) (numDevices : Nat) : JVal :=
  .obj [
    ("configGenerator", .obj [
      ("createdBy", .str "mmwave-cli-python"),
      ("createdOn", .str now),
      ("isConfigIntermediate", .num 1)]),
    ("mmWaveDevices", .arr ((List.range numDevices).map (deviceEntry cfg)))]

/-! ## Serialization outcome (src/mimo.py lines 150-155)

The final `open`/`json.dump` step either succeeds or raises an `IOError`
(an `OSError`), caught by the `except IOError` handler, which prints
`f"ERROR: Gagal menyimpan file JSON: {e}"` and falls through, so the function
returns normally.  `Modelled from Python semantics:` the `OSError` raised by
`open(filename, 'w')` carries `errno`, `strerror` and the `filename` passed to
`open`, and its `str(e)` renders as `[Errno N] strerror: 'filename'`; an
`OSError` raised by the writes inside `json.dump` or at file close (disk
full, for instance) has no `filename` attribute and its `str(e)` renders as
`[Errno N] strerror`, without the destination path. -/

/-- Outcome of the attempted document write: success, a failure raised by
`open(filename, 'w')`, or a failure raised while dumping to the already
opened file. -/
inductive WriteOutcome where
  | success
  | openFailure (errno : ℤ) (strerror : String)
  | dumpFailure (errno : ℤ) (strerror : String)

/-- Python `str(e)` for the `OSError` raised by `open(path, 'w')`, whose
`filename` attribute is the path passed to `open`. -/
def pyStrOSError (path : String) (errno : ℤ) (strerror : String) : String :=
  "[Errno " ++ toString errno ++ "] " ++ strerror ++ ": '" ++ path ++ "'"

/-- Python `str(e)` for an `OSError` without a `filename` attribute, as
raised by the file writes inside `json.dump`. -/
def pyStrOSErrorNoFile (errno : ℤ) (strerror : String) : String :=
  "[Errno " ++ toString errno ++ "] " ++ strerror

/-- `export_config_to_json` (src/mimo.py lines 43-155) with the radar
configuration dictionary threaded as explicit state: the returned value is the
built document together with the stderr report (`none` on success), and the
returned state is the configuration after the call.  Every access to `config`
in the source is a read; the `except IOError` branch prints
`"ERROR: Gagal menyimpan file JSON: " + str(e)` and returns. -/
def export_config_to_json (now filename : String) (numDevices : Nat)
    (w : WriteOutcome) : StateM RadarConfig (JVal × Option String) := do
  let config ← get
  let doc := exportDoc config now numDevices
  match w with
  | .success => pure (doc, none)
  | .openFailure errno strerror =>
      pure (doc, some ("ERROR: Gagal menyimpan file JSON: " ++
        pyStrOSError filename errno strerror))
  | .dumpFailure errno strerror =>
      pure (doc, some ("ERROR: Gagal menyimpan file JSON: " ++
        pyStrOSErrorNoFile errno strerror))

/-! ## TOML alternative input path (src/toml_to_mmwave_json.py) -/

/-- The `[mimo.profile]` table; every key is optional and falls back to the
documented default (`profile.get(key, default)`). -/
structure TomlProfile where
  id : Option ℚ := none
  startFrequency : Option ℚ := none
  idleTime : Option ℚ := none
  adcStartTime : Option ℚ := none
  rampEndTime : Option ℚ := none
  frequencySlope : Option ℚ := none
  numAdcSamples : Option ℚ := none
  rxGain : Option ℚ := none

/-- The `[mimo.frame]` table. -/
structure TomlFrame where
  numLoops : Option ℚ := none
  numFrames : Option ℚ := none
  framePeriodicity : Option ℚ := none

/-- The `[mimo.channel]` table (hex-formatted fields, hence integers). -/
structure TomlChannel where
  rxChannelEn : Option ℤ := none
  txChannelEn : Option ℤ := none

/-- The `[mimo]` section of the input TOML file; a missing sub-table is the
table with every field absent. -/
structure TomlMimo where
  profile : TomlProfile := {}
  frame : TomlFrame := {}
  channel : TomlChannel := {}

/-- The `rlProfileCfg_t` object of the TOML path
(src/toml_to_mmwave_json.py lines 76-85). -/
def tomlProfCfgObj (t : TomlMimo) : JVal :=
  .obj [
    ("profileId", .num (t.profile.id.getD 0)),
    ("startFreqConst_GHz", .num (t.profile.startFrequency.getD 77)),
    ("idleTimeConst_usec", .num (t.profile.idleTime.getD 5)),
    ("adcStartTimeConst_usec", .num (t.profile.adcStartTime.getD 6)),
    ("rampEndTime_usec", .num (t.profile.rampEndTime.getD 40)),
    ("freqSlopeConst_MHz_usec", .num (t.profile.frequencySlope.getD (150148 / 10 ^ 4))),
    ("numAdcSamples", .num (t.profile.numAdcSamples.getD 256)),
    ("rxGain_dB", .num (t.profile.rxGain.getD 48))]

/-- The single `mmWaveDevices` entry built by `generate_mmwave_json`
(src/toml_to_mmwave_json.py lines 62-103). -/
def tomlDeviceEntry (t : TomlMimo) : JVal :=
  .obj [
    ("mmWaveDeviceId", .num 0),
    ("rfConfig", .obj [
      ("waveformType", .str "legacyFrameChirp"),
      ("MIMOScheme", .str "TDM"),
      ("rlChanCfg_t", .obj [
        ("rxChannelEn", .str (pyHexFmt (t.channel.rxChannelEn.getD 15))),
        ("txChannelEn", .str (pyHexFmt (t.channel.txChannelEn.getD 7))),
        ("cascading", .num 1),
        ("cascadingPinoutCfg", .str "0x0")]),
      ("rlProfiles", .arr [.obj [("rlProfileCfg_t", tomlProfCfgObj t)]]),
      ("rlFrameCfg_t", .obj [
        ("numLoops", .num (t.frame.numLoops.getD 16)),
        ("numFrames", .num (t.frame.numFrames.getD 0)),
        ("framePeriodicity_msec", .num (t.frame.framePeriodicity.getD 100)),
        ("triggerSelect", .num 1)])]),
    ("rawDataCaptureConfig", .obj [
      ("rlDevDataFmtCfg_t", .obj [("iqSwapSel", .num 0), ("chInterleave", .num 0)]),
      ("rlDevDataPathCfg_t", .obj [
        ("intfSel", .num 0),
        ("transferFmtPkt0", .str "0x1"),
        ("transferFmtPkt1", .str "0x0")])])]

/-- The `.mmwave.json` document built by `generate_mmwave_json`
(src/toml_to_mmwave_json.py lines 31-114); `now` stands for the
`datetime.now().isoformat()` timestamp. -/
def generate_mmwave_json (t : TomlMimo) (now : String) : JVal :=
  .obj [
    ("configGenerator", .obj [
      ("createdBy", .str "mmwave-cli-linux"),
      ("createdOn", .str now),
      ("isConfigIntermediate", .num 1)]),
    ("currentVersion", .obj [
      ("jsonCfgVersion", .obj [("major", .num 0), ("minor", .num 4), ("patch", .num 0)]),
      ("DFPVersion", .obj [("major", .num 2), ("minor", .num 2), ("patch", .num 0)]),
      ("SDKVersion", .obj [("major", .num 3), ("minor", .num 3), ("patch", .num 0)]),
      ("mmwavelinkVersion", .obj [("major", .num 2), ("minor", .num 2), ("patch", .num 0)])]),
    ("regulatoryRestrictions", .obj [
      ("frequencyRangeBegin_GHz", .num 76),
      ("frequencyRangeEnd_GHz", .num 81),
      ("maxBandwidthAllowed_MHz", .num 4000),
      ("maxTransmitPowerAllowed_dBm", .num 12)]),
    ("systemConfig", .obj [
      ("summary", .str "Auto-generated from Linux mmwave capture"),
      ("sceneParameters", .obj [
        ("ambientTemperature_degC", .num 25),
        ("maxDetectableRange_m", .num 80),
        ("rangeResolution_cm", .num 30),
        ("maxVelocity_kmph", .num (649 / 100)),
        ("velocityResolution_kmph", .num (4 / 10)),
        ("measurementRate", .num 10),
        ("typicalDetectedObjectRCS", .num 1)])]),
    ("mmWaveDevices", .arr [tomlDeviceEntry t]),
    ("processingChainConfig", .obj [
      ("detectionChain", .obj [
        ("name", .str "SimplifiedChain"),
        ("detectionLoss", .num 1),
        ("systemLoss", .num 1),
        ("implementationMargin", .num 2),
        ("detectionSNR", .num 12)])])]

/-! ## Key/value extractor (src/lua_loader.py, ASSIGN_RE and
parse_lua_assignments)

The regex is deterministic, so its match is embedded directly:
`^\s*([a-zA-Z_][a-zA-Z0-9_]*)\s*=\s*([^-\n]+)` -- note that the value
character class excludes both the minus sign and the newline. -/

/-- Python `\s` on ASCII input: space, tab, newline, carriage return,
vertical tab, form feed. -/
def isWs (c : Char) : Bool :=
  c = ' ' || c = '\t' || c = '\n' || c = '\r' || c = '\x0b' || c = '\x0c'

/-- `[a-zA-Z_]`. -/
def isIdStart (c : Char) : Bool :=
  ('a' ≤ c && c ≤ 'z') || ('A' ≤ c && c ≤ 'Z') || c = '_'

/-- `[a-zA-Z0-9_]`. -/
def isIdCont (c : Char) : Bool := isIdStart c || ('0' ≤ c && c ≤ '9')

/-- The value character class `[^-\n]`. -/
def inValClass (c : Char) : Bool := c ≠ '-' && c ≠ '\n'

/-- Matching `\s*([^-\n]+)` at the start of `l`: the leading `\s*` is greedy
but backtracks one whitespace character at a time until `[^-\n]+` can start;
the group itself is the maximal `[^-\n]` run from that point. -/
def matchValue : List Char → Option (List Char)
  | [] => none
  | c :: rest =>
    if isWs c then
      match matchValue rest with
      | some g => some g
      | none =>
        if inValClass c then some (List.takeWhile inValClass (c :: rest)) else none
    else if inValClass c then some (List.takeWhile inValClass (c :: rest))
    else none

/-- Matching `^\s*([a-zA-Z_][a-zA-Z0-9_]*)\s*=` at the start of a line,
returning the identifier and the remainder after the `=`.  (The identifier and
whitespace runs are maximal; no shorter run can make the overall regex succeed,
because the character classes involved are disjoint and none contains `=`.) -/
def matchHead (line : List Char) : Option (List Char × List Char) :=
  match line.dropWhile isWs with
  | [] => none
  | c :: cs =>
    if isIdStart c then
      match (cs.dropWhile isIdCont).dropWhile isWs with
      | [] => none
      | e :: r => if e = '=' then some (c :: cs.takeWhile isIdCont, r) else none
    else none

/-- Removal of trailing whitespace. -/
def rstripWs (l : List Char) : List Char := (l.reverse.dropWhile isWs).reverse

/-- Python `str.strip()` restricted to whitespace. -/
def pyStrip (l : List Char) : List Char := rstripWs (l.dropWhile isWs)

/-- Python `str.rstrip(',')`: removes every trailing comma. -/
def rstripComma (l : List Char) : List Char :=
  (l.reverse.dropWhile (fun c => c = ',')).reverse

/-- Removes at most one trailing comma (the spec's reading of the separator
stripping). -/
def rstripOneComma (l : List Char) : List Char :=
  match l.reverse with
  | ',' :: r => r.reverse
  | _ => l

/-- Python `val.split('--')[0]`: everything before the first `--`. -/
def takeUntilDashDash : List Char → List Char
  | [] => []
  | c :: rest =>
    if c = '-' ∧ rest.head? = some '-' then [] else c :: takeUntilDashDash rest

/-- Everything before the first newline (the spec's "end of line"). -/
def takeUntilNl (l : List Char) : List Char := l.takeWhile (fun c => c ≠ '\n')

/-- `Modelled from the spec:` the literal parser stands for Python's
`ast.literal_eval` (a standard-library call, not part of this repository),
restricted to signed decimal integer and float literals -- the forms the
physical parameters take.  Any other input is a parse failure (`none`). -/
def pyLitPos (l : List Char) : Option ℚ :=
  let ip := l.takeWhile Char.isDigit
  let rest := l.dropWhile Char.isDigit
  let ipVal : ℚ := (ip.foldl (fun a c => a * 10 + (c.toNat - 48)) 0 : ℕ)
  match rest with
  | [] => if ip.isEmpty then none else some ipVal
  | '.' :: fr =>
    if fr.all Char.isDigit && !(ip.isEmpty && fr.isEmpty) then
      some (ipVal + ((fr.foldl (fun a c => a * 10 + (c.toNat - 48)) 0 : ℕ) : ℚ) / 10 ^ fr.length)
    else none
  | _ => none

/-- Signed literal: optional `+` or `-` sign before a numeric literal. -/
def pyLit (l : List Char) : Option ℚ :=
  match l with
  | '-' :: r => (pyLitPos r).map Neg.neg
  | '+' :: r => pyLitPos r
  | _ => pyLitPos l

/-- The processing of one line by `parse_lua_assignments`
(src/lua_loader.py lines 16-33): regex match, then
`val = m.group(2).strip(); val = val.split('--')[0].strip();
val = val.rstrip(',')`, then literal evaluation; `none` when the line is
skipped. -/
def parseLuaLine (line : List Char) : Option (String × ℚ) :=
  match matchHead line with
  | none => none
  | some (ident, rest) =>
    match matchValue rest with
    | none => none
    | some g =>
      (pyLit (rstripComma (pyStrip (takeUntilDashDash (pyStrip g))))).map
        (fun q => (⟨ident⟩, q))

/-- `Modelled from the spec:` the extraction the claim describes -- the value
is everything after `=` up to a comment marker or end of line, with
surrounding whitespace and one trailing `,` stripped, then parsed as a
literal. -/
def parseLuaLineClaim (line : List Char) : Option (String × ℚ) :=
  match matchHead line with
  | none => none
  | some (ident, rest) =>
    (pyLit (rstripOneComma (pyStrip (takeUntilDashDash (takeUntilNl rest))))).map
      (fun q => (⟨ident⟩, q))

/-- `Modelled from the spec:` the amended extraction -- the value is
everything after `=` up to end of line, with surrounding whitespace and all
trailing `,` characters stripped, then parsed as a literal. -/
def parseLuaLineAmended (line : List Char) : Option (String × ℚ) :=
  match matchHead line with
  | none => none
  | some (ident, rest) =>
    (pyLit (rstripComma (pyStrip (takeUntilNl rest)))).map
      (fun q => (⟨ident⟩, q))

/-! # Theorems -/

/-- C3: under the fixed chirp/antenna assignment table, the TX-enable bitmask
of device `d` for chirp `c` is `0` when `d` does not drive `c` and otherwise
`1` shifted left by the 0-based rank of `c` in `d`'s driven set sorted
descending (equivalently, by the number of driven chirps larger than `c`);
consequently every device has exactly 3 non-zero chirps among the 12, each a
single set bit at a position in {0,1,2}, and every chirp has exactly one
device with a non-zero bitmask. -/
theorem txEnable_assignment_table :
    (∀ d : Fin 4, ∀ c : Fin 12,
      txEnable d c =
        if (c : ℕ) ∈ chirpTxTable d
        then 2 ^ ((chirpTxTable d).countP (fun x => decide ((c : ℕ) < x)))
        else 0) ∧
    (∀ d : Fin 4,
      ((List.range 12).filter (fun c => txEnable d c != 0)).length = 3) ∧
    (∀ d : Fin 4, ∀ c : Fin 12, txEnable d c = 0 ∨ txEnable d c ∈ [1, 2, 4]) ∧
    (∀ c : Fin 12,
      ((List.range 4).filter (fun d => txEnable d c != 0)).length = 1) := by
  decide

/-- C10: for every TOML input, `generate_mmwave_json` emits exactly one entry
in `mmWaveDevices` -- device id 0 with `cascading` 1 and `triggerSelect` 1 --
and that entry has no `rlChirps` key at all. -/
theorem toml_single_device_no_chirps (t : TomlMimo) (now : String) :
    jLookup (generate_mmwave_json t now) "mmWaveDevices" =
      some (.arr [tomlDeviceEntry t]) ∧
    jLookup (tomlDeviceEntry t) "mmWaveDeviceId" = some (.num 0) ∧
    jPath (tomlDeviceEntry t) ["rfConfig", "rlChanCfg_t", "cascading"] =
      some (.num 1) ∧
    jPath (tomlDeviceEntry t) ["rfConfig", "rlFrameCfg_t", "triggerSelect"] =
      some (.num 1) ∧
    jPath (tomlDeviceEntry t) ["rfConfig", "rlChirps"] = none :=
  ⟨rfl, rfl, rfl, rfl, rfl⟩

/-- C8: descriptor expansion and serialization leave the canonical
configuration unchanged: after `export_config_to_json` runs, every block of
the configuration state equals its value before the call. -/
theorem export_leaves_config_unchanged (cfg : RadarConfig) (now fn : String)
    (N : ℕ) (w : WriteOutcome) :
    (((export_config_to_json now fn N w).run cfg).2).profileCfg = cfg.profileCfg ∧
    (((export_config_to_json now fn N w).run cfg).2).frameCfg = cfg.frameCfg ∧
    (((export_config_to_json now fn N w).run cfg).2).channelCfg = cfg.channelCfg ∧
    ((export_config_to_json now fn N w).run cfg).2 = cfg := by
  cases w <;> exact ⟨rfl, rfl, rfl, rfl⟩

/-- C7 (amended): when the document write fails with an I/O error,
`export_config_to_json` returns normally (with the configuration state
untouched) and reports a message containing the underlying cause; it neither
raises nor exits, so a surrounding capture loop keeps cycling.  The
destination path appears in the report only for a failure raised by
`open(filename, 'w')` (whose `OSError` carries the path); a failure raised
while dumping to the opened file is reported without the path. -/
theorem export_write_failure_reported (cfg : RadarConfig) (now fn : String)
    (N : ℕ) (errno : ℤ) (strerror : String) :
    (∃ msg : String,
      (export_config_to_json now fn N (.openFailure errno strerror)).run cfg =
        ((exportDoc cfg now N, some msg), cfg) ∧
      fn.data <:+: msg.data ∧ strerror.data <:+: msg.data) ∧
    (∃ msg : String,
      (export_config_to_json now fn N (.dumpFailure errno strerror)).run cfg =
        ((exportDoc cfg now N, some msg), cfg) ∧
      strerror.data <:+: msg.data) := by
  constructor
  · refine ⟨"ERROR: Gagal menyimpan file JSON: " ++ pyStrOSError fn errno strerror,
      rfl, ?_, ?_⟩
    · refine ⟨("ERROR: Gagal menyimpan file JSON: " ++
        ("[Errno " ++ toString errno ++ "] " ++ strerror ++ ": '")).data,
        ("'" : String).data, ?_⟩
      simp [pyStrOSError, String.data_append, List.append_assoc]
    · refine ⟨("ERROR: Gagal menyimpan file JSON: " ++
        ("[Errno " ++ toString errno ++ "] ")).data,
        (": '" ++ fn ++ "'").data, ?_⟩
      simp [pyStrOSError, String.data_append, List.append_assoc]
  · refine ⟨"ERROR: Gagal menyimpan file JSON: " ++
      pyStrOSErrorNoFile errno strerror, rfl, ?_⟩
    refine ⟨("ERROR: Gagal menyimpan file JSON: " ++
      ("[Errno " ++ toString errno ++ "] ")).data, [], ?_⟩
    simp [pyStrOSErrorNoFile, String.data_append, List.append_assoc]

/-- C7 counterexample: a disk-full failure raised while dumping to the
already opened file `capture.mmwave.json` is reported as
`[Errno 28] No space left on device` -- the handler's message carries the
underlying cause but not the destination path, so the write failure is not
reported "together with the destination path" as the claim states. -/
theorem export_dump_failure_no_path :
    (export_config_to_json "t" "capture.mmwave.json" 4
        (.dumpFailure 28 "No space left on device")).run default_radar_config =
      ((exportDoc default_radar_config "t" 4,
        some "ERROR: Gagal menyimpan file JSON: [Errno 28] No space left on device"),
       default_radar_config) ∧
    ¬ (("capture.mmwave.json" : String).data <:+:
      ("ERROR: Gagal menyimpan file JSON: [Errno 28] No space left on device" :
        String).data) := by
  exact ⟨rfl, by decide⟩

/-- C6: for every `num_devices` N ≥ 1, the serialized document's
`mmWaveDevices` array has exactly N entries, in device-id order 0..N-1, each
with exactly 12 `rlChirps` entries. -/
theorem export_document_shape (cfg : RadarConfig) (now : String) (N : ℕ)
    (_hN : 1 ≤ N) :
    ∃ devs : List JVal,
      jLookup (exportDoc cfg now N) "mmWaveDevices" = some (.arr devs) ∧
      devs.length = N ∧
      ∀ i : ℕ, i < N →
        ∃ d : JVal, devs[i]? = some d ∧
          jLookup d "mmWaveDeviceId" = some (.num i) ∧
          ∃ chs : List JVal,
            jPath d ["rfConfig", "rlChirps"] = some (.arr chs) ∧
            chs.length = 12 := by
  refine ⟨(List.range N).map (deviceEntry cfg), rfl, by simp, ?_⟩
  intro i hi
  refine ⟨deviceEntry cfg i, ?_, rfl,
    (List.range 12).map (fun c => chirpEntry c i), rfl, by simp⟩
  simp [List.getElem?_map, List.getElem?_range hi]

/-- Witness for C6 at N = 4. -/
theorem export_document_shape_witness :
    1 ≤ 4 ∧
    ∃ devs : List JVal,
      jLookup (exportDoc default_radar_config "t" 4) "mmWaveDevices" =
        some (.arr devs) ∧
      devs.length = 4 ∧
      ∀ i : ℕ, i < 4 →
        ∃ d : JVal, devs[i]? = some d ∧
          jLookup d "mmWaveDeviceId" = some (.num i) ∧
          ∃ chs : List JVal,
            jPath d ["rfConfig", "rlChirps"] = some (.arr chs) ∧
            chs.length = 12 :=
  ⟨by decide, export_document_shape default_radar_config "t" 4 (by decide)⟩

/-- C9: for every device id `d ≥ 4` (reachable when `num_devices > 4`), the
assignment-table lookup falls back to the empty driven set, all 12 of that
device's chirp entries carry `txEnable = "0x0"`, and the expansion still
produces the device entry inside the document without failing. -/
theorem export_unknown_device_txEnable_zero (d : ℕ) (hd : 4 ≤ d) :
    chirpTxTable d = [] ∧
    (∀ c : ℕ, txEnable d c = 0) ∧
    (∀ cfg : RadarConfig, ∃ chs : List JVal,
      jPath (deviceEntry cfg d) ["rfConfig", "rlChirps"] = some (.arr chs) ∧
      chs.length = 12 ∧
      ∀ ch ∈ chs, jPath ch ["rlChirpCfg_t", "txEnable"] = some (.str "0x0")) ∧
    (∀ cfg : RadarConfig, ∀ now : String, ∀ N : ℕ, d < N →
      ∃ devs : List JVal,
        jLookup (exportDoc cfg now N) "mmWaveDevices" = some (.arr devs) ∧
        devs[d]? = some (deviceEntry cfg d)) := by
  have htab : chirpTxTable d = [] := by
    unfold chirpTxTable
    rw [if_neg (by omega), if_neg (by omega), if_neg (by omega), if_neg (by omega)]
  have htx : ∀ c : ℕ, txEnable d c = 0 := by
    intro c
    unfold txEnable
    rw [htab]
    rfl
  refine ⟨htab, htx, ?_, ?_⟩
  · intro cfg
    refine ⟨(List.range 12).map (fun c => chirpEntry c d), rfl, by simp, ?_⟩
    intro ch hch
    simp only [List.mem_map, List.mem_range] at hch
    obtain ⟨c, _, rfl⟩ := hch
    simp only [chirpEntry, jPath, jLookup, htx c]
    rfl
  · intro cfg now N hdN
    exact ⟨(List.range N).map (deviceEntry cfg), rfl,
      by simp [List.getElem?_map, List.getElem?_range hdN]⟩

/-- Witness for C9 at device id 4 in a 5-device configuration. -/
theorem export_unknown_device_txEnable_zero_witness :
    (4 : ℕ) ≤ 4 ∧
    chirpTxTable 4 = [] ∧
    txEnable 4 0 = 0 ∧
    (∃ chs : List JVal,
      jPath (deviceEntry default_radar_config 4) ["rfConfig", "rlChirps"] =
        some (.arr chs) ∧
      chs.length = 12 ∧
      ∀ ch ∈ chs, jPath ch ["rlChirpCfg_t", "txEnable"] = some (.str "0x0")) ∧
    (∃ devs : List JVal,
      jLookup (exportDoc default_radar_config "t" 5) "mmWaveDevices" =
        some (.arr devs) ∧
      devs[4]? = some (deviceEntry default_radar_config 4)) := by
  obtain ⟨h1, h2, h3, h4⟩ := export_unknown_device_txEnable_zero 4 (by decide)
  exact ⟨by decide, h1, h2 0, h3 default_radar_config,
    h4 default_radar_config "t" 5 (by decide)⟩

/-- Lookup in a single optional dictionary entry. -/
theorem lookup_optEntry (k k' : String) (o : Option ℤ) :
    List.lookup k (optEntry k' o) = if k = k' then o else none := by
  cases o with
  | none => simp [optEntry]
  | some z =>
    by_cases h : k = k'
    · simp [optEntry, List.lookup_cons, h]
    · simp [optEntry, List.lookup_cons, beq_eq_false_iff_ne.mpr h, h]

/-- The key of any entry of `optEntry k o` is `k`. -/
theorem fst_of_mem_optEntry {x : String × ℤ} {k : String} {o : Option ℤ}
    (h : x ∈ optEntry k o) : x.1 = k := by
  cases o with
  | none => cases h
  | some z =>
    simp only [optEntry, List.mem_singleton] at h
    rw [h]

/-- C1: each of the 13 recognized source names present in the parameter
mapping produces exactly the corresponding firmware field with the arithmetic
result truncated toward zero; the output contains only the 13 firmware
fields, and names outside the 13 recognized source names have no effect on
the output. -/
theorem convert_physical_to_lsb_fields (params : String → Option ℚ) :
    List.lookup "startFreqConst" (convert_physical_to_lsb params) =
      (params "start_freq").map fwd_start_freq ∧
    List.lookup "freqSlopeConst" (convert_physical_to_lsb params) =
      (params "slope").map fwd_slope ∧
    List.lookup "idleTimeConst" (convert_physical_to_lsb params) =
      (params "idle_time").map fwd_time ∧
    List.lookup "adcStartTimeConst" (convert_physical_to_lsb params) =
      (params "adc_start_time").map fwd_time ∧
    List.lookup "rampEndTime" (convert_physical_to_lsb params) =
      (params "ramp_end_time").map fwd_time ∧
    List.lookup "numAdcSamples" (convert_physical_to_lsb params) =
      (params "adc_samples").map ratTrunc ∧
    List.lookup "digOutSampleRate" (convert_physical_to_lsb params) =
      (params "sample_freq").map ratTrunc ∧
    List.lookup "rxGain" (convert_physical_to_lsb params) =
      (params "rx_gain").map ratTrunc ∧
    List.lookup "chirpStartIdx" (convert_physical_to_lsb params) =
      (params "start_chirp_tx").map ratTrunc ∧
    List.lookup "chirpEndIdx" (convert_physical_to_lsb params) =
      (params "end_chirp_tx").map ratTrunc ∧
    List.lookup "numLoops" (convert_physical_to_lsb params) =
      (params "nchirp_loops").map ratTrunc ∧
    List.lookup "numFrames" (convert_physical_to_lsb params) =
      (params "nframes_master").map ratTrunc ∧
    List.lookup "framePeriodicity" (convert_physical_to_lsb params) =
      (params "Inter_Frame_Interval").map fwd_frame_interval ∧
    (∀ x ∈ convert_physical_to_lsb params,
      x.1 ∈ ["startFreqConst", "freqSlopeConst", "idleTimeConst",
        "adcStartTimeConst", "rampEndTime", "numAdcSamples",
        "digOutSampleRate", "rxGain", "chirpStartIdx", "chirpEndIdx",
        "numLoops", "numFrames", "framePeriodicity"]) ∧
    (∀ q : String → Option ℚ,
      (∀ n ∈ ["start_freq", "slope", "idle_time", "adc_start_time",
        "ramp_end_time", "adc_samples", "sample_freq", "rx_gain",
        "start_chirp_tx", "end_chirp_tx", "nchirp_loops", "nframes_master",
        "Inter_Frame_Interval"], params n = q n) →
      convert_physical_to_lsb params = convert_physical_to_lsb q) := by
  refine ⟨?_, ?_, ?_, ?_, ?_, ?_, ?_, ?_, ?_, ?_, ?_, ?_, ?_, ?_, ?_⟩
  case _ => simp [convert_physical_to_lsb, List.lookup_append, lookup_optEntry]
  case _ => simp [convert_physical_to_lsb, List.lookup_append, lookup_optEntry]
  case _ => simp [convert_physical_to_lsb, List.lookup_append, lookup_optEntry]
  case _ => simp [convert_physical_to_lsb, List.lookup_append, lookup_optEntry]
  case _ => simp [convert_physical_to_lsb, List.lookup_append, lookup_optEntry]
  case _ => simp [convert_physical_to_lsb, List.lookup_append, lookup_optEntry]
  case _ => simp [convert_physical_to_lsb, List.lookup_append, lookup_optEntry]
  case _ => simp [convert_physical_to_lsb, List.lookup_append, lookup_optEntry]
  case _ => simp [convert_physical_to_lsb, List.lookup_append, lookup_optEntry]
  case _ => simp [convert_physical_to_lsb, List.lookup_append, lookup_optEntry]
  case _ => simp [convert_physical_to_lsb, List.lookup_append, lookup_optEntry]
  case _ => simp [convert_physical_to_lsb, List.lookup_append, lookup_optEntry]
  case _ => simp [convert_physical_to_lsb, List.lookup_append, lookup_optEntry]
  case _ =>
    intro x hx
    unfold convert_physical_to_lsb at hx
    simp only [List.mem_append] at hx
    rcases hx with
      ((((((((((((h | h) | h) | h) | h) | h) | h) | h) | h) | h) | h) | h) | h) <;>
      simp [fst_of_mem_optEntry h]
  case _ =>
    intro q h
    have h1 := h "start_freq" (by simp)
    have h2 := h "slope" (by simp)
    have h3 := h "idle_time" (by simp)
    have h4 := h "adc_start_time" (by simp)
    have h5 := h "ramp_end_time" (by simp)
    have h6 := h "adc_samples" (by simp)
    have h7 := h "sample_freq" (by simp)
    have h8 := h "rx_gain" (by simp)
    have h9 := h "start_chirp_tx" (by simp)
    have h10 := h "end_chirp_tx" (by simp)
    have h11 := h "nchirp_loops" (by simp)
    have h12 := h "nframes_master" (by simp)
    have h13 := h "Inter_Frame_Interval" (by simp)
    simp only [convert_physical_to_lsb, h1, h2, h3, h4, h5, h6, h7, h8, h9,
      h10, h11, h12, h13]

/-- Witness for C1: a mapping holding only `start_freq = 79` converts to the
single field `startFreqConst = int(79e9 / 53.6441803) = 1472666737`, and a
mapping that additionally binds the unrecognized name `foo_bar` converts to
the same output. -/
theorem convert_physical_to_lsb_fields_witness :
    List.lookup "startFreqConst"
      (convert_physical_to_lsb
        (fun n => if n = "start_freq" then some 79 else none)) =
      some 1472666737 ∧
    convert_physical_to_lsb
        (fun n => if n = "start_freq" then some 79 else none) =
      convert_physical_to_lsb
        (fun n => if n = "foo_bar" then some 42
          else if n = "start_freq" then some 79 else none) := by
  constructor
  · rw [(convert_physical_to_lsb_fields
      (fun n => if n = "start_freq" then some 79 else none)).1]
    norm_num [fwd_start_freq, ratTrunc]
  · exact (convert_physical_to_lsb_fields
      (fun n => if n = "start_freq" then some 79 else none)).2.2.2.2.2.2.2.2.2.2.2.2.2.2
      (fun n => if n = "foo_bar" then some 42
        else if n = "start_freq" then some 79 else none)
      (by decide)

/-- Truncation toward zero moves a rational by at most one. -/
theorem ratTrunc_sub_abs_le (q : ℚ) : |(ratTrunc q : ℚ) - q| ≤ 1 := by
  unfold ratTrunc
  split
  · rw [abs_le]
    exact ⟨by linarith [Int.sub_one_lt_floor q], by linarith [Int.floor_le q]⟩
  · rw [abs_le]
    exact ⟨by linarith [Int.le_ceil q], by linarith [Int.ceil_lt_add_one q]⟩

/-- Round-trip error bound for a truncating conversion with LSB size `a`. -/
theorem trunc_roundtrip (a v : ℚ) (ha : 0 < a) :
    |(ratTrunc (v / a) : ℚ) * a - v| ≤ a := by
  have h := ratTrunc_sub_abs_le (v / a)
  have hv : (ratTrunc (v / a) : ℚ) * a - v = ((ratTrunc (v / a) : ℚ) - v / a) * a := by
    field_simp
  rw [hv, abs_mul, abs_of_pos ha]
  calc |(ratTrunc (v / a) : ℚ) - v / a| * a ≤ 1 * a :=
        mul_le_mul_of_nonneg_right h ha.le
    _ = a := one_mul a

/-- C2: the LSB-to-physical-unit formulas used by the descriptor serializer
are the algebraically exact inverses of the forward conversion formulas with
the division reinstated and no re-rounding, and for every physical value `v`
the round trip through the truncating forward conversion returns `v` within
one LSB-equivalent. -/
theorem inverse_formulas_exact_and_roundtrip :
    (∀ v : ℚ, startFreq_GHz (v * 10 ^ 9 / (536441803 / 10 ^ 7)) = v) ∧
    (∀ v : ℚ, freqSlope_MHz_usec (v * 1000 / (482797623 / 10 ^ 7)) = v) ∧
    (∀ v : ℚ, usec_ofConst (v / (1 / 100)) = v) ∧
    (∀ v : ℚ, framePeriodicity_msec (v * 10 ^ 6 / 5) = v) ∧
    (∀ v : ℚ,
      |startFreq_GHz (fwd_start_freq v : ℤ) - v| ≤ 536441803 / 10 ^ 7 / 10 ^ 9) ∧
    (∀ v : ℚ,
      |freqSlope_MHz_usec (fwd_slope v : ℤ) - v| ≤ 482797623 / 10 ^ 7 / 1000) ∧
    (∀ v : ℚ, |usec_ofConst (fwd_time v : ℤ) - v| ≤ 1 / 100) ∧
    (∀ v : ℚ,
      |framePeriodicity_msec (fwd_frame_interval v : ℤ) - v| ≤ 5 / 10 ^ 6) := by
  refine ⟨?_, ?_, ?_, ?_, ?_, ?_, ?_, ?_⟩
  · intro v
    unfold startFreq_GHz
    field_simp
  · intro v
    unfold freqSlope_MHz_usec
    field_simp
  · intro v
    unfold usec_ofConst
    norm_num
  · intro v
    unfold framePeriodicity_msec
    field_simp
  · intro v
    unfold startFreq_GHz fwd_start_freq
    have harg : v * 10 ^ 9 / (536441803 / 10 ^ 7) =
        v / (536441803 / 10 ^ 7 / 10 ^ 9) := by
      ring
    rw [harg]
    have hout : ∀ z : ℤ, (z : ℚ) * (536441803 / 10 ^ 7) / 10 ^ 9 =
        (z : ℚ) * (536441803 / 10 ^ 7 / 10 ^ 9) := fun z => by ring
    rw [hout]
    exact trunc_roundtrip _ v (by norm_num)
  · intro v
    unfold freqSlope_MHz_usec fwd_slope
    have harg : v * 1000 / (482797623 / 10 ^ 7) =
        v / (482797623 / 10 ^ 7 / 1000) := by
      ring
    rw [harg]
    have hout : ∀ z : ℤ, (z : ℚ) * (482797623 / 10 ^ 7) / 1000 =
        (z : ℚ) * (482797623 / 10 ^ 7 / 1000) := fun z => by ring
    rw [hout]
    exact trunc_roundtrip _ v (by norm_num)
  · intro v
    unfold usec_ofConst fwd_time
    exact trunc_roundtrip (1 / 100) v (by norm_num)
  · intro v
    unfold framePeriodicity_msec fwd_frame_interval
    have harg : v * 10 ^ 6 / 5 = v / (5 / 10 ^ 6) := by
      ring
    rw [harg]
    have hout : ∀ z : ℤ, (z : ℚ) * 5 / 10 ^ 6 = (z : ℚ) * (5 / 10 ^ 6) :=
      fun z => by ring
    rw [hout]
    exact trunc_roundtrip _ v (by norm_num)

/-- Every hexadecimal digit character is an uppercase hex digit. -/
theorem hexDigitChar_upper : ∀ k : Fin 16, isUpperHexDigit (hexDigitChar k) = true := by
  decide

/-- Every character produced by `hexChars` is an uppercase hex digit. -/
theorem hexChars_upper (fuel : ℕ) :
    ∀ n c, c ∈ hexChars fuel n → isUpperHexDigit c = true := by
  induction fuel with
  | zero =>
    intro n c h
    cases h
  | succ f ih =>
    intro n c h
    unfold hexChars at h
    by_cases hn : n = 0
    · rw [if_pos hn] at h
      cases h
    · rw [if_neg hn] at h
      rcases List.mem_append.mp h with h | h
      · exact ih _ _ h
      · rw [List.mem_singleton] at h
        rw [h]
        exact hexDigitChar_upper ⟨n % 16, Nat.mod_lt n (by norm_num)⟩

/-- Every character of `hexStr n` is an uppercase hex digit. -/
theorem hexStr_upper (n : ℕ) : ∀ c ∈ (hexStr n).data, isUpperHexDigit c = true := by
  intro c hc
  unfold hexStr at hc
  by_cases hn : n = 0
  · rw [if_pos hn] at hc
    have h0 : ("0" : String).data = ['0'] := rfl
    rw [h0, List.mem_singleton] at hc
    rw [hc]
    decide
  · rw [if_neg hn] at hc
    exact hexChars_upper n n c hc

/-- For a natural value, Python's `f"0x{v:X}"` is the `0x` prefix followed by
uppercase hexadecimal digits. -/
theorem pyHexFmt_natCast (n : ℕ) :
    pyHexFmt (n : ℤ) = "0x" ++ hexStr n ∧
    ∀ c ∈ (hexStr n).data, isUpperHexDigit c = true := by
  constructor
  · unfold pyHexFmt
    rw [if_neg (not_lt.mpr (Int.natCast_nonneg n)), Int.toNat_natCast]
  · exact hexStr_upper n

/-- C5 (amended): in the serialized descriptor documents, bit-field values
(channel enables, TX-enable, the pfVcoSelect/backoff/phase-shifter codes,
transfer-format words) are rendered as `0x`-prefixed uppercase hexadecimal
strings, and the other numeric fields -- digOutSampleRate and all
physical-unit profile/frame timing fields included -- are rendered as native
JSON numbers; the one exception is `rxGain_dB`, which `export_config_to_json`
also renders as a hex string (the TOML path renders it as a number). -/
theorem serializer_rendering_conventions (cfg : RadarConfig) (t : TomlMimo)
    (d c : ℕ) :
    jPath (deviceEntry cfg d) ["rfConfig", "rlChanCfg_t", "rxChannelEn"] =
      some (.str (pyHexFmt cfg.channelCfg.rxChannelEn)) ∧
    jPath (deviceEntry cfg d) ["rfConfig", "rlChanCfg_t", "txChannelEn"] =
      some (.str (pyHexFmt cfg.channelCfg.txChannelEn)) ∧
    jLookup (profCfgObj cfg) "pfVcoSelect" =
      some (.str (pyHexFmt cfg.profileCfg.pfVcoSelect)) ∧
    jLookup (profCfgObj cfg) "txOutPowerBackoffCode" =
      some (.str (pyHexFmt cfg.profileCfg.txOutPowerBackoffCode)) ∧
    jLookup (profCfgObj cfg) "txPhaseShifter" =
      some (.str (pyHexFmt cfg.profileCfg.txPhaseShifter)) ∧
    jPath (chirpEntry c d) ["rlChirpCfg_t", "txEnable"] =
      some (.str (pyHexFmt (txEnable d c))) ∧
    jPath (deviceEntry cfg d)
        ["rawDataCaptureConfig", "rlDevDataPathCfg_t", "transferFmtPkt0"] =
      some (.str (pyHexFmt cfg.datapathCfg.transferFmtPkt0)) ∧
    jPath (deviceEntry cfg d)
        ["rawDataCaptureConfig", "rlDevDataPathCfg_t", "transferFmtPkt1"] =
      some (.str (pyHexFmt cfg.datapathCfg.transferFmtPkt1)) ∧
    jLookup (profCfgObj cfg) "rxGain_dB" =
      some (.str (pyHexFmt cfg.profileCfg.rxGain)) ∧
    jLookup (profCfgObj cfg) "digOutSampleRate" =
      some (.num cfg.profileCfg.digOutSampleRate) ∧
    jLookup (profCfgObj cfg) "startFreqConst_GHz" =
      some (.num (startFreq_GHz cfg.profileCfg.startFreqConst)) ∧
    jLookup (profCfgObj cfg) "idleTimeConst_usec" =
      some (.num (usec_ofConst cfg.profileCfg.idleTimeConst)) ∧
    jLookup (profCfgObj cfg) "adcStartTimeConst_usec" =
      some (.num (usec_ofConst cfg.profileCfg.adcStartTimeConst)) ∧
    jLookup (profCfgObj cfg) "rampEndTime_usec" =
      some (.num (usec_ofConst cfg.profileCfg.rampEndTime)) ∧
    jLookup (profCfgObj cfg) "txStartTime_usec" =
      some (.num (usec_ofConst cfg.profileCfg.txStartTime)) ∧
    jLookup (profCfgObj cfg) "freqSlopeConst_MHz_usec" =
      some (.num (freqSlope_MHz_usec cfg.profileCfg.freqSlopeConst)) ∧
    jLookup (profCfgObj cfg) "numAdcSamples" =
      some (.num cfg.profileCfg.numAdcSamples) ∧
    jLookup (profCfgObj cfg) "hpfCornerFreq1" =
      some (.num cfg.profileCfg.hpfCornerFreq1) ∧
    jLookup (profCfgObj cfg) "hpfCornerFreq2" =
      some (.num cfg.profileCfg.hpfCornerFreq2) ∧
    jLookup (frameCfgObj cfg d) "framePeriodicity_msec" =
      some (.num (framePeriodicity_msec cfg.frameCfg.framePeriodicity)) ∧
    jLookup (frameCfgObj cfg d) "numLoops" = some (.num cfg.frameCfg.numLoops) ∧
    jLookup (frameCfgObj cfg d) "numFrames" = some (.num cfg.frameCfg.numFrames) ∧
    jLookup (frameCfgObj cfg d) "chirpStartIdx" =
      some (.num cfg.frameCfg.chirpStartIdx) ∧
    jLookup (frameCfgObj cfg d) "chirpEndIdx" =
      some (.num cfg.frameCfg.chirpEndIdx) ∧
    jLookup (frameCfgObj cfg d) "triggerSelect" =
      some (.num (if d = 0 then 1 else 2)) ∧
    jLookup (deviceEntry cfg d) "mmWaveDeviceId" = some (.num d) ∧
    (∀ n : ℕ, pyHexFmt (n : ℤ) = "0x" ++ hexStr n ∧
      ∀ ch ∈ (hexStr n).data, isUpperHexDigit ch = true) ∧
    jLookup (tomlProfCfgObj t) "rxGain_dB" =
      some (.num (t.profile.rxGain.getD 48)) ∧
    jPath (tomlDeviceEntry t) ["rfConfig", "rlChanCfg_t", "rxChannelEn"] =
      some (.str (pyHexFmt (t.channel.rxChannelEn.getD 15))) ∧
    jPath (tomlDeviceEntry t) ["rfConfig", "rlChanCfg_t", "txChannelEn"] =
      some (.str (pyHexFmt (t.channel.txChannelEn.getD 7))) :=
  ⟨rfl, rfl, rfl, rfl, rfl, rfl, rfl, rfl, rfl, rfl, rfl, rfl, rfl, rfl, rfl,
   rfl, rfl, rfl, rfl, rfl, rfl, rfl, rfl, rfl, rfl, rfl, pyHexFmt_natCast,
   rfl, rfl, rfl⟩

/-- C5 counterexample: in the document produced by `export_config_to_json`
for the default configuration, the `rxGain_dB` field is the hex string
`"0x30"` (48 = 0x30), not a native JSON number as the claim states. -/
theorem rxGain_dB_rendered_as_hex_string :
    jPath (deviceEntry default_radar_config 0) ["rfConfig", "rlProfiles"] =
      some (.arr [.obj [("rlProfileCfg_t", profCfgObj default_radar_config)]]) ∧
    jLookup (profCfgObj default_radar_config) "rxGain_dB" =
      some (.str "0x30") ∧
    ¬ ∃ q : ℚ, jLookup (profCfgObj default_radar_config) "rxGain_dB" =
      some (.num q) := by
  have hx : jLookup (profCfgObj default_radar_config) "rxGain_dB" =
      some (.str "0x30") := rfl
  refine ⟨rfl, hx, ?_⟩
  rintro ⟨q, h⟩
  rw [hx] at h
  simp at h

/-- Dropping a prefix twice is the same as dropping it once. -/
theorem dropWhile_dropWhile_self (p : Char → Bool) (l : List Char) :
    (l.dropWhile p).dropWhile p = l.dropWhile p := by
  induction l with
  | nil => rfl
  | cons c cs ih =>
    by_cases h : p c
    · simp [List.dropWhile_cons, h, ih]
    · simp [List.dropWhile_cons, h]

/-- `rstripWs` yields a prefix of its input. -/
theorem rstripWs_prefix (m : List Char) : rstripWs m <+: m := by
  rw [← List.reverse_suffix]
  have h := List.dropWhile_suffix (l := m.reverse) isWs
  simpa [rstripWs] using h

/-- If `m` has no leading whitespace, neither has `rstripWs m`. -/
theorem dropWhile_rstripWs (m : List Char) (hm : m.dropWhile isWs = m) :
    (rstripWs m).dropWhile isWs = rstripWs m := by
  obtain ⟨t, ht⟩ := rstripWs_prefix m
  cases hr : rstripWs m with
  | nil => rfl
  | cons a as =>
    rw [hr] at ht
    have hm' : m = a :: (as ++ t) := by
      rw [← ht]
      simp
    have ha : isWs a = false := by
      cases hwa : isWs a with
      | false => rfl
      | true =>
        exfalso
        have := hm
        rw [hm', List.dropWhile_cons, if_pos hwa] at this
        have hlen := congrArg List.length this
        have hle := (List.dropWhile_sublist (l := as ++ t) isWs).length_le
        rw [List.length_cons] at hlen
        omega
    rw [List.dropWhile_cons, ha]
    simp

/-- Python `strip` is idempotent. -/
theorem pyStrip_idem (l : List Char) : pyStrip (pyStrip l) = pyStrip l := by
  unfold pyStrip
  rw [dropWhile_rstripWs _ (dropWhile_dropWhile_self isWs l)]
  unfold rstripWs
  rw [List.reverse_reverse, dropWhile_dropWhile_self]

/-- Stripping only removes characters. -/
theorem pyStrip_subset (l : List Char) : ∀ c ∈ pyStrip l, c ∈ l := by
  intro c hc
  unfold pyStrip rstripWs at hc
  rw [List.mem_reverse] at hc
  have h1 : c ∈ (l.dropWhile isWs).reverse :=
    (List.dropWhile_sublist isWs).subset hc
  rw [List.mem_reverse] at h1
  exact (List.dropWhile_sublist isWs).subset h1

/-- On a line without `--`, Python `split('--')[0]` is the identity. -/
theorem takeUntilDashDash_eq_self (l : List Char) (h : '-' ∉ l) :
    takeUntilDashDash l = l := by
  induction l with
  | nil => rfl
  | cons c cs ih =>
    have hc : ¬(c = '-' ∧ cs.head? = some '-') := by
      rintro ⟨rfl, -⟩
      exact h (List.mem_cons_self _ _)
    rw [takeUntilDashDash, if_neg hc,
      ih (fun hmem => h (List.mem_cons_of_mem c hmem))]

/-- When every character is in the value class, `\s*([^-\n]+)` matches and
the captured group strips to the same text as the whole remainder. -/
theorem matchValue_all_valid (l : List Char)
    (hv : ∀ c ∈ l, inValClass c = true) (hne : l ≠ []) :
    ∃ g, matchValue l = some g ∧ pyStrip g = pyStrip l := by
  induction l with
  | nil => exact absurd rfl hne
  | cons c cs ih =>
    have hvc := hv c (List.mem_cons_self c cs)
    by_cases hws : isWs c
    · by_cases hcs : cs = []
      · subst hcs
        refine ⟨[c], ?_, rfl⟩
        simp [matchValue, hws, hvc, List.takeWhile_cons]
      · obtain ⟨g, hg, hgs⟩ := ih (fun x hx => hv x (List.mem_cons_of_mem c hx)) hcs
        refine ⟨g, ?_, ?_⟩
        · simp [matchValue, hws, hg]
        · rw [hgs]
          unfold pyStrip
          rw [List.dropWhile_cons, if_pos hws]
    · refine ⟨c :: cs, ?_, rfl⟩
      have ht : List.takeWhile inValClass (c :: cs) = c :: cs :=
        List.takeWhile_eq_self_iff.mpr hv
      simp [matchValue, hws, hvc, ht]

/-- The remainder returned by `matchHead` consists of characters of the
line. -/
theorem matchHead_rest_subset (line ident r : List Char)
    (h : matchHead line = some (ident, r)) : ∀ c ∈ r, c ∈ line := by
  unfold matchHead at h
  cases hdw : line.dropWhile isWs with
  | nil =>
    rw [hdw] at h
    cases h
  | cons c cs =>
    rw [hdw] at h
    dsimp only at h
    by_cases hid : isIdStart c
    · rw [if_pos hid] at h
      cases hdw2 : (cs.dropWhile isIdCont).dropWhile isWs with
      | nil =>
        rw [hdw2] at h
        cases h
      | cons e es =>
        rw [hdw2] at h
        dsimp only at h
        by_cases he : e = '='
        · rw [if_pos he] at h
          have hpair := Option.some.inj h
          have hr : r = es := (Prod.ext_iff.mp hpair).2.symm
          have s2 : ((cs.dropWhile isIdCont).dropWhile isWs).Sublist cs :=
            (List.dropWhile_sublist isWs).trans (List.dropWhile_sublist isIdCont)
          have s2' : (e :: es).Sublist cs := by
            rw [← hdw2]
            exact s2
          have s3 : cs.Sublist line := by
            have h1 : cs.Sublist (line.dropWhile isWs) := by
              rw [hdw]
              exact List.sublist_cons_self c cs
            exact h1.trans (List.dropWhile_sublist isWs)
          intro x hx
          exact ((List.sublist_cons_self e es).trans (s2'.trans s3)).subset
            (hr ▸ hx)
        · rw [if_neg he] at h
          cases h
    · rw [if_neg hid] at h
      cases h

/-- C4 (amended): for every input line containing no `-` (hence no comment
marker) and no embedded newline, the extracted value of an assignment line is
everything after `=` up to end of line, with surrounding whitespace and all
trailing `,` characters stripped, then parsed as a literal.  (Lines whose
value text contains `-` are truncated at the first `-` by the regex value
class, so negative literals are never extracted.) -/
theorem extractor_no_minus_lines (line : List Char) (hn : '\n' ∉ line)
    (hm : '-' ∉ line) : parseLuaLine line = parseLuaLineAmended line := by
  unfold parseLuaLine parseLuaLineAmended
  cases hh : matchHead line with
  | none => rfl
  | some ir =>
    obtain ⟨ident, rest⟩ := ir
    dsimp only
    have hsub := matchHead_rest_subset line ident rest hh
    have hval : ∀ c ∈ rest, inValClass c = true := by
      intro c hc
      have h1 : c ≠ '-' := fun he => hm (he ▸ hsub c hc)
      have h2 : c ≠ '\n' := fun he => hn (he ▸ hsub c hc)
      simp [inValClass, h1, h2]
    have hnl : takeUntilNl rest = rest :=
      List.takeWhile_eq_self_iff.mpr (fun c hc => by
        have h2 : c ≠ '\n' := fun he => hn (he ▸ hsub c hc)
        simp [h2])
    rw [hnl]
    by_cases hre : rest = []
    · subst hre
      rfl
    · obtain ⟨g, hg, hgs⟩ := matchValue_all_valid rest hval hre
      rw [hg]
      dsimp only
      rw [hgs]
      have hnd : '-' ∉ pyStrip rest :=
        fun hmem => hm (hsub _ (pyStrip_subset rest _ hmem))
      rw [takeUntilDashDash_eq_self _ hnd, pyStrip_idem]

/-- C4 counterexample: on the line `offset = -3` -- an assignment whose value
text contains `-` -- the extraction the claim describes yields
`offset = -3`, but the extractor actually extracts nothing: the regex value
class `[^-\n]` stops before the minus sign, leaving an empty value that fails
literal parsing. -/
theorem extractor_minus_counterexample :
    parseLuaLineClaim ("offset = -3".toList) = some ("offset", -3) ∧
    parseLuaLine ("offset = -3".toList) = none := by
  constructor
  · rfl
  · rfl

/-- Witness for C4 (amended) on the dash-free line `nchirp_loops = 64,`. -/
theorem extractor_no_minus_lines_witness :
    '\n' ∉ ("nchirp_loops = 64,".toList) ∧
    '-' ∉ ("nchirp_loops = 64,".toList) ∧
    parseLuaLine ("nchirp_loops = 64,".toList) =
      parseLuaLineAmended ("nchirp_loops = 64,".toList) ∧
    parseLuaLine ("nchirp_loops = 64,".toList) = some ("nchirp_loops", 64) :=
  ⟨by decide, by decide,
    extractor_no_minus_lines _ (by decide) (by decide), by decide⟩
